import Mathlib

/-!
Verification of the vulcan-agent core against its specification.

The development shallowly embeds the Go sources:
  * `retryer/retryer.go` — the retry-with-backoff executor (`WithRetries`,
    `ErrPermanent`);
  * `aborted/checks.go` — the aborted-job cache (`IsAborted`, `get`);
  * the Docker execution backend (`Run`, `run`, `readContainerLogs`);
  * `cmd/cmd.go` — the shutdown drain sequence of `MainWithExitCode`.

Go errors are modelled by the inductive type `GoErr`, with `errsIs`
playing the role of `errors.Is` (walking the `%w` wrap chain).
Effects on external collaborators (the Docker client, the HTTP remote,
channels) are modelled by oracles describing each call's outcome and,
for the backend, by the trace of events the code performs.
-/

namespace VulcanAgent

/-- Go error values, as used by the agent: the `retryer.ErrPermanent`
sentinel, `context.Canceled`, `context.DeadlineExceeded`,
`http.ErrServerClosed`, plain `errors.New` errors, and `fmt.Errorf`
wrapping with `%w`. -/
inductive GoErr where
  | permanent : GoErr
  | canceled : GoErr
  | deadlineExceeded : GoErr
  | serverClosed : GoErr
  | base : String → GoErr
  | wrap : String → GoErr → GoErr
  deriving Repr, DecidableEq, BEq

/-- The `retryer.ErrPermanent` sentinel (`errors.New("permanet error")`). -/
def ErrPermanent : GoErr := GoErr.permanent

/-- `errors.Is e target`: `e` equals `target` or wraps an error that does. -/
def errsIs : GoErr → GoErr → Bool
  | e, target =>
    decide (e = target) ||
      match e with
      | GoErr.wrap _ inner => errsIs inner target
      | _ => false

/-! ## Retry executor (`retryer/retryer.go`, `WithRetries`)

`WithRetries` loops: call `exec`; on success return nil; if the error
wraps `ErrPermanent` return it; if the retries counter (initialised to
-1 and incremented after each call, hence equal to calls-1) has reached
the ceiling `b.retries` return the error; otherwise select on the
backoff policy's `Done()` (return the error) or `Next()` (loop).

The embedding takes the operation as `exec : Nat → Option GoErr`
(result of the i-th call, 1-based, `none` = success) and the backoff
policy's select outcomes as `pnext : Nat → Bool` (`pnext r = true` iff
`Next()` fires at the select performed after `r` retries have been
counted). The loop always terminates within `ceiling + 1` calls because
the counter check precedes the select, so a fuel of `ceiling + 1`
suffices and the fuel-out branch is unreachable. -/

/-- Loop of `WithRetries`: `calls` is the number of calls already made. -/
def wrAux (ceiling : Nat) (exec : Nat → Option GoErr) (pnext : Nat → Bool) :
    Nat → Nat → Nat × Option GoErr
  | 0, calls => (calls, none)
  | fuel + 1, calls =>
    match exec (calls + 1) with
    | none => (calls + 1, none)
    | some e =>
      if errsIs e ErrPermanent then (calls + 1, some e)
      else if calls = ceiling then (calls + 1, some e)
      else if pnext calls then wrAux ceiling exec pnext fuel (calls + 1)
      else (calls + 1, some e)

/-- `Retryer.WithRetries`: returns (number of invocations of `exec`,
returned error). -/
def WithRetries (ceiling : Nat) (exec : Nat → Option GoErr)
    (pnext : Nat → Bool) : Nat × Option GoErr :=
  wrAux ceiling exec pnext (ceiling + 1) 0

/-- Unfolding the loop when the current call fails non-permanently with
budget remaining and the policy grants another retry. -/
lemma wrAux_step (ceiling : Nat) (exec : Nat → Option GoErr)
    (pnext : Nat → Bool) (fuel calls : Nat) (e : GoErr)
    (hx : exec (calls + 1) = some e) (hp : errsIs e ErrPermanent = false)
    (hc : calls ≠ ceiling) (hn : pnext calls = true) :
    wrAux ceiling exec pnext (fuel + 1) calls =
      wrAux ceiling exec pnext fuel (calls + 1) := by
  simp [wrAux, hx, hp, hc, hn]

/-- Unfolding the loop at the last budgeted call. -/
lemma wrAux_last (ceiling : Nat) (exec : Nat → Option GoErr)
    (pnext : Nat → Bool) (fuel : Nat) (e : GoErr)
    (hx : exec (ceiling + 1) = some e) (hp : errsIs e ErrPermanent = false) :
    wrAux ceiling exec pnext (fuel + 1) ceiling = (ceiling + 1, some e) := by
  simp [wrAux, hx, hp]

/-- If every call up to call `ceiling + 1` fails non-permanently and the
policy keeps granting retries, the loop started after `calls` calls ends
with `ceiling + 1` total calls returning the last error. -/
lemma wrAux_exhaust (ceiling : Nat) (exec : Nat → Option GoErr)
    (pnext : Nat → Bool)
    (hfail : ∀ i, 1 ≤ i → i ≤ ceiling + 1 →
      ∃ e, exec i = some e ∧ errsIs e ErrPermanent = false)
    (hnext : ∀ r, r < ceiling → pnext r = true) :
    ∀ d fuel calls, calls + d = ceiling → d ≤ fuel →
      wrAux ceiling exec pnext (fuel + 1) calls =
        (ceiling + 1, exec (ceiling + 1)) := by
  intro d
  induction d with
  | zero =>
    intro fuel calls hcd _
    have hcalls : calls = ceiling := by omega
    subst hcalls
    obtain ⟨e, hx, hp⟩ := hfail (calls + 1) (by omega) (by omega)
    rw [wrAux_last calls exec pnext fuel e hx hp, hx]
  | succ d ih =>
    intro fuel calls hcd hdf
    obtain ⟨e, hx, hp⟩ := hfail (calls + 1) (by omega) (by omega)
    obtain ⟨fuel', rfl⟩ : ∃ f, fuel = f + 1 := ⟨fuel - 1, by omega⟩
    rw [wrAux_step ceiling exec pnext (fuel' + 1) calls e hx hp (by omega)
      (hnext calls (by omega))]
    exact ih fuel' (calls + 1) (by omega) (by omega)

/-- Unfolding the loop when the current call fails permanently. -/
lemma wrAux_perm (ceiling : Nat) (exec : Nat → Option GoErr)
    (pnext : Nat → Bool) (fuel calls : Nat) (e : GoErr)
    (hx : exec (calls + 1) = some e) (hp : errsIs e ErrPermanent = true) :
    wrAux ceiling exec pnext (fuel + 1) calls = (calls + 1, some e) := by
  simp [wrAux, hx, hp]

/-- If the first permanently-failing call is call `k` and earlier calls
fail non-permanently with the policy granting retries, the loop stops at
call `k` with that error. -/
lemma wrAux_perm_stop (ceiling k : Nat) (exec : Nat → Option GoErr)
    (pnext : Nat → Bool) (e : GoErr) (hk : k ≤ ceiling)
    (hperm : exec k = some e) (he : errsIs e ErrPermanent = true)
    (hfail : ∀ i, 1 ≤ i → i < k →
      ∃ e', exec i = some e' ∧ errsIs e' ErrPermanent = false)
    (hnext : ∀ r, r + 1 < k → pnext r = true) :
    ∀ d fuel calls, calls + d + 1 = k → d ≤ fuel →
      wrAux ceiling exec pnext (fuel + 1) calls = (k, some e) := by
  intro d
  induction d with
  | zero =>
    intro fuel calls hcd _
    have hck : calls + 1 = k := by omega
    rw [wrAux_perm ceiling exec pnext fuel calls e (hck ▸ hperm) he, hck]
  | succ d ih =>
    intro fuel calls hcd hdf
    obtain ⟨e', hx, hp⟩ := hfail (calls + 1) (by omega) (by omega)
    obtain ⟨fuel', rfl⟩ : ∃ f, fuel = f + 1 := ⟨fuel - 1, by omega⟩
    rw [wrAux_step ceiling exec pnext (fuel' + 1) calls e' hx hp (by omega)
      (hnext calls (by omega))]
    exact ih fuel' (calls + 1) (by omega) (by omega)

/-- C2: if every attempt fails with a non-permanent error (and the
backoff policy, configured with max-retries equal to the ceiling, keeps
granting retries up to the ceiling), `WithRetries` with retry ceiling
`N` invokes the operation exactly `N + 1` times and returns the error
observed on the last invocation. -/
theorem withRetries_exhausted_budget (ceiling : Nat)
    (exec : Nat → Option GoErr) (pnext : Nat → Bool)
    (hfail : ∀ i, 1 ≤ i → i ≤ ceiling + 1 →
      ∃ e, exec i = some e ∧ errsIs e ErrPermanent = false)
    (hnext : ∀ r, r < ceiling → pnext r = true) :
    WithRetries ceiling exec pnext = (ceiling + 1, exec (ceiling + 1)) :=
  wrAux_exhaust ceiling exec pnext hfail hnext ceiling ceiling 0 (by omega)
    (Nat.le_refl ceiling)

/-- Witness for C2 at ceiling 2 and an operation always failing with a
plain error: 3 invocations, last error returned. -/
theorem withRetries_exhausted_budget_witness :
    WithRetries 2 (fun _ => some (GoErr.base "boom")) (fun _ => true) =
      (3, some (GoErr.base "boom")) :=
  withRetries_exhausted_budget 2 (fun _ => some (GoErr.base "boom"))
    (fun _ => true)
    (fun _ _ _ => ⟨GoErr.base "boom", rfl, rfl⟩)
    (fun _ _ => rfl)

/-- C3: if the first error wrapping the `Permanent` sentinel occurs on
invocation `k` with `k ≤ ceiling` (earlier invocations failing
non-permanently, the policy granting their retries), `WithRetries`
invokes the operation exactly `k` times and returns that error, which
matches the Permanent sentinel by wrapped-cause chain. -/
theorem withRetries_permanent_shortcircuit (ceiling k : Nat)
    (exec : Nat → Option GoErr) (pnext : Nat → Bool) (e : GoErr)
    (hk1 : 1 ≤ k) (hk : k ≤ ceiling)
    (hperm : exec k = some e) (he : errsIs e ErrPermanent = true)
    (hfail : ∀ i, 1 ≤ i → i < k →
      ∃ e', exec i = some e' ∧ errsIs e' ErrPermanent = false)
    (hnext : ∀ r, r + 1 < k → pnext r = true) :
    WithRetries ceiling exec pnext = (k, some e) ∧
      errsIs e ErrPermanent = true :=
  ⟨wrAux_perm_stop ceiling k exec pnext e hk hperm he hfail hnext
      (k - 1) ceiling 0 (by omega) (by omega),
    he⟩

/-- Witness for C3 at ceiling 3: the operation fails plainly on call 1
and with a Permanent-wrapped error on call 2; `WithRetries` stops after
2 calls. -/
theorem withRetries_permanent_shortcircuit_witness :
    WithRetries 3
        (fun i => if i = 1 then some (GoErr.base "transient")
          else some (GoErr.wrap "a permanent error" GoErr.permanent))
        (fun _ => true) =
      (2, some (GoErr.wrap "a permanent error" GoErr.permanent)) :=
  (withRetries_permanent_shortcircuit 3 2
    (fun i => if i = 1 then some (GoErr.base "transient")
      else some (GoErr.wrap "a permanent error" GoErr.permanent))
    (fun _ => true)
    (GoErr.wrap "a permanent error" GoErr.permanent)
    (by omega) (by omega) rfl (by decide)
    (fun i h1 h2 => by
      have hi : i = 1 := by omega
      subst hi
      exact ⟨GoErr.base "transient", rfl, by decide⟩)
    (fun _ _ => rfl)).1

/-! ## Aborted-job cache (`aborted/checks.go`)

`Checks.get` declares outer variables `ids []string` and `err error`
and runs, through the retryer, a closure that: issues the HTTP GET
(`resp, err := c.client.Get(...)` — the `:=` declares a NEW `err`
shadowing the outer one, and every later assignment in the closure
targets that inner `err`), returns a Permanent-wrapped error on a
non-200 status, otherwise seeds `ids = []string{""}` and decodes the
body into `ids`, returning a Permanent-wrapped error if decoding fails.
The return value of `c.retryer.WithRetries(...)` is discarded and the
outer `err` is never assigned, so `get` always returns a nil error;
`ids` reflects only the assignments actually executed:
  * every attempt fails at transport level → `ids` stays nil;
  * a non-200 status ends the retries (Permanent) before the
    `ids = []string{""}` line → `ids` stays nil;
  * a 200 whose body fails to decode ends the retries (Permanent) with
    `ids` holding whatever slice state `dec.Decode(&ids)` left behind:
    Go's `encoding/json` returns syntax errors and top-level type
    mismatches before touching the target, leaving the `[]string{""}`
    seed, but a type error on an element *inside* a JSON array is saved
    (`d.saveError`) and decoding continues, so the slice holds the
    successfully decoded elements with the zero value `""` at each
    failed position (e.g. body `["a",5]` leaves `["a",""]`) — in every
    failure mode the left-behind slice contains `""`;
  * a 200 whose body decodes → `ids` holds the decoded list.
The net effect of one `get` call on `ids` is captured by
`RemoteOutcome`; `decodeFail` carries the slice state left by the
failed decode. -/

/-- Net behaviour of the remote aborted-checks endpoint during one
`get` call: transport failure on every attempt, a non-200 status,
a 200 whose body fails to decode (carrying the slice state the failed
`Decode` left in `ids`, which by the `encoding/json` semantics above
always contains `""`), or a 200 decoding to a list. -/
inductive RemoteOutcome where
  | transportFail : RemoteOutcome
  | badStatus : Nat → RemoteOutcome
  | decodeFail : List String → RemoteOutcome
  | ok : List String → RemoteOutcome
  deriving Repr, DecidableEq

/-- `Checks.get`: the identifier list and the returned error. Because
the closure's `err` shadows the outer `err` and the retryer's return
value is discarded, the returned error is always `none`. -/
def get (o : RemoteOutcome) : List String × Option GoErr :=
  match o with
  | RemoteOutcome.transportFail => ([], none)
  | RemoteOutcome.badStatus _ => ([], none)
  | RemoteOutcome.decodeFail ids => (ids, none)
  | RemoteOutcome.ok ids => (ids, none)

/-- Result of one `Checks.IsAborted` call: the returned boolean and
error, the cache contents after the call, and whether a remote fetch
was performed. -/
structure AbortedResult where
  aborted : Bool
  err : Option GoErr
  cache : List String
  fetched : Bool
  deriving Repr, DecidableEq

/-- `Checks.IsAborted`: fast path consults the cached set; on a miss it
calls `get`, propagates a non-nil error leaving the cache alone, and
otherwise replaces the whole cached set with the fetched identifiers
and re-checks membership. The cached set (a Go `map[string]struct{}`)
is modelled by the list of its keys. -/
def IsAborted (cache : List String) (ID : String) (o : RemoteOutcome) :
    AbortedResult :=
  if cache.contains ID then
    { aborted := true, err := none, cache := cache, fetched := false }
  else
    match get o with
    | (_, some e) =>
      { aborted := false, err := some e, cache := cache, fetched := true }
    | (ids, none) =>
      { aborted := ids.contains ID, err := none, cache := ids,
        fetched := true }

/-- C1 (failing input): the cache holds `"X"`; `IsAborted "Y"` misses
and the remote endpoint fails at transport level on every attempt. The
code returns `(false, nil)` — no error is propagated — and replaces the
cached snapshot with the empty set, so a subsequent `IsAborted "X"`
misses too (here again under a failing endpoint) and returns `false`
instead of `true`. The same happens under a non-200 status. -/
theorem isAborted_fetch_failure_clears_cache :
    IsAborted ["X"] "Y" RemoteOutcome.transportFail =
      { aborted := false, err := none, cache := [], fetched := true } ∧
    IsAborted [] "X" RemoteOutcome.transportFail =
      { aborted := false, err := none, cache := [], fetched := true } ∧
    IsAborted ["X"] "Y" (RemoteOutcome.badStatus 500) =
      { aborted := false, err := none, cache := [], fetched := true } := by
  decide

/-- C8: if the cached set contains `X`, `IsAborted X` returns
`(true, nil)` via the fast path, performs no fetch, and leaves the
cached set unchanged — whatever the remote endpoint would do. -/
theorem isAborted_cached_fast_path (cache : List String) (X : String)
    (o : RemoteOutcome) (h : cache.contains X = true) :
    IsAborted cache X o =
      { aborted := true, err := none, cache := cache, fetched := false } := by
  have h' : X ∈ cache := by simpa using h
  simp [IsAborted, h']

/-- Witness for C8: `"job1"` is cached; the lookup returns true with no
fetch even while the endpoint is failing. -/
theorem isAborted_cached_fast_path_witness :
    IsAborted ["job0", "job1"] "job1" RemoteOutcome.transportFail =
      { aborted := true, err := none, cache := ["job0", "job1"],
        fetched := false } :=
  isAborted_cached_fast_path ["job0", "job1"] "job1"
    RemoteOutcome.transportFail (by decide)

/-- C10 (counterexample): for the 200 body `["a",5]` — which fails to
decode as a JSON array of strings — Go's decoder stores `"a"`, saves
the type error on element 1 and leaves its zero value, so the failed
`Decode` leaves `ids = ["a",""]` and `IsAborted` installs the cache
`["a",""]`, not the singleton containing only the empty string. -/
theorem isAborted_decode_failure_not_singleton :
    IsAborted ["job0"] "job1" (RemoteOutcome.decodeFail ["a", ""]) =
      { aborted := false, err := none, cache := ["a", ""],
        fetched := true } ∧
    (["a", ""] : List String) ≠ [""] := by
  exact ⟨by decide, by decide⟩

/-- C10 (amended): on a cache miss where the endpoint answers 200 with
a body that fails to decode as a JSON array of strings, `IsAborted`
returns a nil error and replaces the cached set with the slice state
left by the failed decode — the seeded `[""]` when the body is rejected
before element decoding, or the partially decoded elements with `""` at
each failed position for a mid-array type error; in every failure mode
this set contains the empty-string identifier (hypothesis `hmem`,
the `encoding/json` guarantee), so a subsequent `IsAborted ""` returns
true via the fast path without any fetch. -/
theorem isAborted_decode_failure_installs_empty_id (cache : List String)
    (ID : String) (ids : List String) (o : RemoteOutcome)
    (h : cache.contains ID = false) (hmem : ids.contains "" = true) :
    (IsAborted cache ID (RemoteOutcome.decodeFail ids)).err = none ∧
    (IsAborted cache ID (RemoteOutcome.decodeFail ids)).cache = ids ∧
    IsAborted ids "" o =
      { aborted := true, err := none, cache := ids, fetched := false } := by
  have h' : ID ∉ cache := by simpa using h
  have hm : ("" : String) ∈ ids := by simpa using hmem
  exact ⟨by simp [IsAborted, get, h'], by simp [IsAborted, get, h'],
    by simp [IsAborted, hm]⟩

/-- Witness for C10 (amended) with a cache holding `"job0"`, a miss on
`"job1"`, and the failed decode leaving `["a", ""]`. -/
theorem isAborted_decode_failure_installs_empty_id_witness :
    (IsAborted ["job0"] "job1" (RemoteOutcome.decodeFail ["a", ""])).err
        = none ∧
    (IsAborted ["job0"] "job1" (RemoteOutcome.decodeFail ["a", ""])).cache
        = ["a", ""] ∧
    IsAborted ["a", ""] "" RemoteOutcome.transportFail =
      { aborted := true, err := none, cache := ["a", ""],
        fetched := false } :=
  isAborted_decode_failure_installs_empty_id ["job0"] "job1" ["a", ""]
    RemoteOutcome.transportFail (by decide) (by decide)

/-! ## Docker execution backend (`backend/docker`)

`Backend.run` performs, in order: `Create` (on error: send the error on
the result channel and return — no container exists, so no cleanup);
`defer` a forced `ContainerRemove` under `context.Background()` (runs
when the goroutine exits, after whatever result was sent);
`ContainerStart` (on error: send a wrapped error); `ContainerWait` —
a wait error that is neither `context.Canceled` nor
`context.DeadlineExceeded` sends a wrapped error, while a
cancellation/deadline error issues `ContainerStop` with the fixed
5-second `abortTimeout` under a fresh `context.Background()` and sends
the cancellation error unwrapped; then `ContainerLogs` and
`readContainerLogs` (each failure sends a wrapped error), and finally
the demuxed output is sent. `Backend.Run` first pulls the image when a
registry server is configured and returns `(nil, err)` — no channel —
if the pull fails; otherwise it spawns `run` and returns the channel.

The embedding records the calls `run` makes and the value sent on the
result channel as a trace of `Event`s, driven by an oracle `RunEnv`
giving each Docker call's outcome. Bytes are modelled as `List Nat`
(newline = 10). -/

/-- Observable events of one `run` goroutine. `stop`'s `freshCtx` flag
records that the stop request was issued under `context.Background()`
rather than the run's (possibly cancelled) context; `remove`'s flag is
the `Force` option. `send` is the delivery of a `backend.RunResult` on
the result channel. -/
inductive Event where
  | create : String → Event
  | start : String → Event
  | wait : String → Event
  | stop : String → Bool → Nat → Event
  | logs : String → Event
  | send : List Nat → Option GoErr → Event
  | remove : String → Bool → Event
  deriving Repr, DecidableEq

/-- Oracle for one `run`: outcome of `Create` (container id or error),
of `ContainerStart`, of `ContainerWait`, of `ContainerLogs`, and of
demultiplexing the log stream (stdout bytes, stderr bytes). -/
structure RunEnv where
  createRes : Except GoErr String
  startErr : Option GoErr
  waitErr : Option GoErr
  logsErr : Option GoErr
  readRes : Except GoErr (List Nat × List Nat)
  deriving Repr

/-- `errors.Is(err, context.Canceled) || errors.Is(err, context.DeadlineExceeded)`. -/
def isCtxDone (e : GoErr) : Bool :=
  errsIs e GoErr.canceled || errsIs e GoErr.deadlineExceeded

/-- `readContainerLogs`, after `stdcopy.StdCopy` has demultiplexed the
stream: `bytes.Join([][]byte{stdout, stderr}, []byte("\n"))`. -/
def readContainerLogs (stdout stderr : List Nat) : List Nat :=
  stdout ++ [10] ++ stderr

/-- The fixed `abortTimeout` grace period, in seconds. -/
def abortTimeout : Nat := 5

/-- Body of `Backend.run` after a successful `Create` of container
`cid` (everything between the `defer` and the goroutine's exit). -/
def runBody (env : RunEnv) (cid : String) : List Event :=
  match env.startErr with
  | some e =>
    [Event.start cid, Event.send [] (some (GoErr.wrap "error starting container" e))]
  | none =>
    [Event.start cid, Event.wait cid] ++
      match env.waitErr with
      | some e =>
        if isCtxDone e then
          [Event.stop cid true abortTimeout, Event.send [] (some e)]
        else
          [Event.send [] (some (GoErr.wrap "error running container" e))]
      | none =>
        match env.logsErr with
        | some e =>
          [Event.logs cid, Event.send [] (some (GoErr.wrap "error getting logs" e))]
        | none =>
          Event.logs cid ::
            match env.readRes with
            | Except.error e =>
              [Event.send [] (some (GoErr.wrap "error reading logs" e))]
            | Except.ok (out, err) =>
              [Event.send (readContainerLogs out err) none]

/-- `Backend.run`: on `Create` failure the error is sent and the
goroutine exits with no container to clean up; otherwise the deferred
forced `ContainerRemove` is appended after the body's events. -/
def run (env : RunEnv) : List Event :=
  match env.createRes with
  | Except.error e => [Event.send [] (some e)]
  | Except.ok cid => (Event.create cid :: runBody env cid) ++ [Event.remove cid true]

/-- `Backend.Run`: when a registry server is configured the image is
pulled first (through the backoff loop, whose net outcome is
`pullErr`); a pull failure returns the error and NO result channel.
Otherwise the `run` goroutine is spawned and its channel returned,
modelled by the trace of events on it. -/
def Run (hasServer : Bool) (pullErr : Option GoErr) (env : RunEnv) :
    Except GoErr (List Event) :=
  if hasServer then
    match pullErr with
    | some e => Except.error e
    | none => Except.ok (run env)
  else Except.ok (run env)

/-- Recognises result-channel deliveries. -/
def isSend : Event → Bool
  | Event.send _ _ => true
  | _ => false

/-- Recognises `ContainerRemove` calls. -/
def isRemove : Event → Bool
  | Event.remove _ _ => true
  | _ => false

/-- Recognises `ContainerLogs` calls. -/
def isLogs : Event → Bool
  | Event.logs _ => true
  | _ => false

/-- Number of results delivered on the channel in a trace. -/
def sendCount (t : List Event) : Nat := t.countP isSend

/-- Number of `ContainerRemove` calls in a trace. -/
def removeCount (t : List Event) : Nat := t.countP isRemove

/-- Whether some `ContainerRemove` happens strictly before the first
result delivery of the trace. -/
def removedBeforeSend (t : List Event) : Bool :=
  (t.takeWhile (fun ev => !isSend ev)).any isRemove

/-- Every branch of the goroutine body delivers exactly one result and
never calls `ContainerRemove` (removal is only in the deferred
cleanup). -/
lemma runBody_counts (env : RunEnv) (cid : String) :
    sendCount (runBody env cid) = 1 ∧ removeCount (runBody env cid) = 0 := by
  obtain ⟨cr, se, we, le, rr⟩ := env
  cases se <;> cases we <;> cases le <;> cases rr <;>
    simp [runBody, sendCount, removeCount, isSend, isRemove,
      List.countP_cons, List.countP_append] <;>
    split <;>
    simp [List.countP_cons, isSend, isRemove]

/-- The trace of one `run` delivers exactly one result, on every
oracle. -/
lemma run_sendCount (env : RunEnv) : sendCount (run env) = 1 := by
  cases hcr : env.createRes with
  | error e => simp [run, hcr, sendCount, isSend, List.countP_cons]
  | ok cid =>
    have h := (runBody_counts env cid).1
    simp only [sendCount] at h
    simp [run, hcr, sendCount, List.countP_append, List.countP_cons, isSend, h]

/-- When creation succeeded, the trace of one `run` removes the
container exactly once. -/
lemma run_removeCount (env : RunEnv) (cid : String)
    (hcr : env.createRes = Except.ok cid) : removeCount (run env) = 1 := by
  have h := (runBody_counts env cid).2
  simp only [removeCount] at h
  simp [run, hcr, removeCount, List.countP_append, List.countP_cons, isRemove, h]

/-- A fully successful oracle for `run`: container `"c1"`, clean start,
wait, log collection; stdout bytes `[104, 105]`, stderr bytes
`[101]`. -/
def envAllOk : RunEnv :=
  { createRes := Except.ok "c1", startErr := none, waitErr := none,
    logsErr := none, readRes := Except.ok ([104, 105], [101]) }

/-- C4 (counterexample): when a registry server is configured and the
image pull fails, `Run` returns the error and NO result channel, so no
terminal result is delivered on a returned channel for that job — the
claim's "regardless of which step (image pull, ...)" fails at the
image-pull step. -/
theorem run_pull_failure_returns_no_channel :
    ¬ ∃ t, Run true (some (GoErr.base "backoff retry exceeded pulling Docker image"))
        envAllOk = Except.ok t ∧ sendCount t = 1 := by
  rintro ⟨t, ht, -⟩
  simp [Run] at ht

/-- C4 (amended): whenever `Run` does return a result channel (the
image pull succeeded or no registry is configured), exactly one
terminal result is delivered on it, regardless of which of create,
start, wait or log collection produced it; a pull failure instead
surfaces synchronously as `Run`'s error return with no channel. -/
theorem run_channel_delivers_exactly_once (hasServer : Bool)
    (pullErr : Option GoErr) (env : RunEnv) (t : List Event)
    (h : Run hasServer pullErr env = Except.ok t) : sendCount t = 1 := by
  cases hasServer with
  | false =>
    have h' : run env = t := by simpa [Run] using h
    exact h' ▸ run_sendCount env
  | true =>
    cases pullErr with
    | some e => simp [Run] at h
    | none =>
      have h' : run env = t := by simpa [Run] using h
      exact h' ▸ run_sendCount env

/-- Witness for C4 (amended): with no registry configured, `Run`
returns the channel of `run envAllOk`, which carries exactly one
result. -/
theorem run_channel_delivers_exactly_once_witness :
    sendCount (run envAllOk) = 1 :=
  run_channel_delivers_exactly_once false none envAllOk (run envAllOk) rfl

/-- C5 (counterexample): on a fully successful run of container
`"c1"`, no `ContainerRemove` happens before the result is delivered on
the channel: the deferred removal runs when the goroutine exits, which
is after the send. -/
theorem run_remove_is_not_before_send :
    envAllOk.createRes = Except.ok "c1" ∧
      removedBeforeSend (run envAllOk) = false := by
  exact ⟨rfl, by decide⟩

/-- C5 (amended): for every run whose container was created, on every
oracle — including cancellation — the container is removed exactly
once, by the cleanup deferred to the exit of the run routine, which
executes after the result has been delivered (the removal is the last
event of the trace). -/
theorem run_always_removes_container (env : RunEnv) (cid : String)
    (hcr : env.createRes = Except.ok cid) :
    removeCount (run env) = 1 ∧
      (run env).getLast? = some (Event.remove cid true) := by
  refine ⟨run_removeCount env cid hcr, ?_⟩
  simp only [run, hcr]
  rw [List.getLast?_append_of_ne_nil _ (by simp)]
  rfl

/-- Witness for C5 (amended) on the all-success oracle. -/
theorem run_always_removes_container_witness :
    removeCount (run envAllOk) = 1 ∧
      (run envAllOk).getLast? = some (Event.remove "c1" true) :=
  run_always_removes_container envAllOk "c1" rfl

/-- C6: for a job whose container exits successfully and whose logs are
collected successfully, the delivered output is the stdout bytes, a
single newline (byte 10), then the stderr bytes, and the container is
removed exactly once. -/
theorem run_success_output_and_single_remove (cid : String)
    (out err : List Nat) :
    run { createRes := Except.ok cid, startErr := none, waitErr := none,
          logsErr := none, readRes := Except.ok (out, err) } =
      [Event.create cid, Event.start cid, Event.wait cid, Event.logs cid,
        Event.send (out ++ [10] ++ err) none, Event.remove cid true] ∧
    removeCount
      (run { createRes := Except.ok cid, startErr := none, waitErr := none,
             logsErr := none, readRes := Except.ok (out, err) }) = 1 := by
  constructor
  · simp [run, runBody, readContainerLogs]
  · exact run_removeCount _ cid rfl

/-- Witness for C6: container `"c1"`, stdout `[104, 105]`, stderr
`[101]`. -/
theorem run_success_output_and_single_remove_witness :
    run { createRes := Except.ok "c1", startErr := none, waitErr := none,
          logsErr := none, readRes := Except.ok ([104, 105], [101]) } =
      [Event.create "c1", Event.start "c1", Event.wait "c1", Event.logs "c1",
        Event.send ([104, 105] ++ [10] ++ [101]) none,
        Event.remove "c1" true] ∧
    removeCount
      (run { createRes := Except.ok "c1", startErr := none, waitErr := none,
             logsErr := none, readRes := Except.ok ([104, 105], [101]) }) = 1 :=
  run_success_output_and_single_remove "c1" [104, 105] [101]

/-- C7: if the wait ends with a cancellation or deadline error, the
backend issues a 5-second-bounded stop under a fresh background
context, collects no logs, delivers that error as the run's result, and
still removes the container exactly once. -/
theorem run_cancelled_while_waiting (cid : String) (e : GoErr)
    (le : Option GoErr) (rr : Except GoErr (List Nat × List Nat))
    (h : isCtxDone e = true) :
    run { createRes := Except.ok cid, startErr := none, waitErr := some e,
          logsErr := le, readRes := rr } =
      [Event.create cid, Event.start cid, Event.wait cid,
        Event.stop cid true abortTimeout, Event.send [] (some e),
        Event.remove cid true] ∧
    removeCount
      (run { createRes := Except.ok cid, startErr := none,
             waitErr := some e, logsErr := le, readRes := rr }) = 1 ∧
    (run { createRes := Except.ok cid, startErr := none, waitErr := some e,
           logsErr := le, readRes := rr }).countP isLogs = 0 := by
  refine ⟨?_, run_removeCount _ cid rfl, ?_⟩
  · simp [run, runBody, h]
  · simp [run, runBody, h, List.countP_cons, List.countP_append, isLogs]

/-- Witness for C7: container `"c1"`, wait interrupted by
`context.Canceled`. -/
theorem run_cancelled_while_waiting_witness :
    run { createRes := Except.ok "c1", startErr := none,
          waitErr := some GoErr.canceled, logsErr := none,
          readRes := Except.ok ([], []) } =
      [Event.create "c1", Event.start "c1", Event.wait "c1",
        Event.stop "c1" true abortTimeout, Event.send [] (some GoErr.canceled),
        Event.remove "c1" true] ∧
    removeCount
      (run { createRes := Except.ok "c1", startErr := none,
             waitErr := some GoErr.canceled, logsErr := none,
             readRes := Except.ok ([], []) }) = 1 ∧
    (run { createRes := Except.ok "c1", startErr := none,
           waitErr := some GoErr.canceled, logsErr := none,
           readRes := Except.ok ([], []) }).countP isLogs = 0 :=
  run_cancelled_while_waiting "c1" GoErr.canceled none (Except.ok ([], []))
    (by decide)

/-! ## Shutdown drain sequence (`cmd/cmd.go`, tail of `MainWithExitCode`)

After the cancellation of the queue-read context, `MainWithExitCode`
drains in order: the idle-tracker goroutine (`<-stopperDone`; a non-nil
error other than `context.Canceled` is logged), the queue-read loop
(`<-qrdone`; same treatment), `srv.Shutdown(context.Background())`
(any non-nil error is logged and the function returns 1), and the serve
goroutine (`<-httpDone`; a non-nil error other than
`http.ErrServerClosed` is logged and the function returns 1). Otherwise
it returns 0. The embedding maps the four observed errors to the exit
code and the list of error-log messages emitted. -/

/-- Error-log messages of the drain sequence. -/
inductive DrainLog where
  | trackerStop : DrainLog
  | agentStop : DrainLog
  | httpShutdown : DrainLog
  | httpServe : DrainLog
  deriving Repr, DecidableEq

/-- The four errors observed while draining: from the idle tracker,
from the queue-read loop, from `srv.Shutdown`, and from the serve
goroutine. -/
structure DrainEnv where
  stopperErr : Option GoErr
  qrErr : Option GoErr
  shutdownErr : Option GoErr
  httpErr : Option GoErr
  deriving Repr

/-- Drain tail of `MainWithExitCode`: returns the exit code and the
error-log messages emitted. -/
def mainDrain (env : DrainEnv) : Nat × List DrainLog :=
  let l1 : List DrainLog :=
    match env.stopperErr with
    | some e => if errsIs e GoErr.canceled then [] else [DrainLog.trackerStop]
    | none => []
  let l2 : List DrainLog :=
    match env.qrErr with
    | some e => if errsIs e GoErr.canceled then [] else [DrainLog.agentStop]
    | none => []
  match env.shutdownErr with
  | some _ => (1, l1 ++ l2 ++ [DrainLog.httpShutdown])
  | none =>
    match env.httpErr with
    | some e =>
      if errsIs e GoErr.serverClosed then (0, l1 ++ l2)
      else (1, l1 ++ l2 ++ [DrainLog.httpServe])
    | none => (0, l1 ++ l2)

/-- C9: the drain sequence exits with code 1 exactly when
`srv.Shutdown` failed or the serve goroutine reported an error other
than `http.ErrServerClosed`; the idle-tracker and queue-read errors
never change the exit code (they are only logged, and only when they
are not context cancellations). -/
theorem mainDrain_exit_code (env : DrainEnv) :
    ((mainDrain env).1 = 1 ↔
      env.shutdownErr ≠ none ∨
        ∃ e, env.httpErr = some e ∧ errsIs e GoErr.serverClosed = false) ∧
    (mainDrain env).1 =
      (mainDrain { env with stopperErr := none, qrErr := none }).1 ∧
    (∀ e, env.stopperErr = some e → errsIs e GoErr.canceled = false →
      DrainLog.trackerStop ∈ (mainDrain env).2) ∧
    (∀ e, env.qrErr = some e → errsIs e GoErr.canceled = false →
      DrainLog.agentStop ∈ (mainDrain env).2) := by
  obtain ⟨se, qe, she, he⟩ := env
  refine ⟨?_, ?_, ?_, ?_⟩
  · cases she with
    | some e => simp [mainDrain]
    | none =>
      cases he with
      | none => simp [mainDrain]
      | some e =>
        by_cases hsc : errsIs e GoErr.serverClosed = true
        · simp [mainDrain, hsc]
        · simp only [Bool.not_eq_true] at hsc
          simp [mainDrain, hsc]
  · cases she <;> cases he <;>
      simp [mainDrain] <;> split <;> simp
  · intro e hse hc
    cases hse
    cases she <;> cases he <;>
      simp [mainDrain, hc] <;> split <;> simp [hc]
  · intro e hqe hc
    cases hqe
    cases she <;> cases he <;>
      simp [mainDrain, hc] <;> split <;> simp [hc]

/-- Witness for C9: a non-cancellation tracker error together with an
unexpected serve-goroutine error — the tracker error is logged, the
serve error makes the exit code 1. -/
theorem mainDrain_exit_code_witness :
    (mainDrain { stopperErr := some (GoErr.base "tracker boom"),
                 qrErr := none, shutdownErr := none,
                 httpErr := some (GoErr.base "listen tcp: address in use") }).1
        = 1 ∧
    DrainLog.trackerStop ∈
      (mainDrain { stopperErr := some (GoErr.base "tracker boom"),
                   qrErr := none, shutdownErr := none,
                   httpErr := some (GoErr.base "listen tcp: address in use")
                 }).2 := by
  have h := mainDrain_exit_code
    { stopperErr := some (GoErr.base "tracker boom"), qrErr := none,
      shutdownErr := none,
      httpErr := some (GoErr.base "listen tcp: address in use") }
  exact ⟨h.1.mpr (Or.inr ⟨GoErr.base "listen tcp: address in use", rfl, rfl⟩),
    h.2.2.1 (GoErr.base "tracker boom") rfl rfl⟩

end VulcanAgent
